import Mathlib

/-!
Verification development for the custom-field subsystem of
`netbox/extras/models/customfields.py` (class `CustomField`).

The embedding below translates the Python source into Lean:

* Python runtime values that can reach `CustomField.validate`,
  `CustomField.clean` and the data-synchronisation methods are modelled by
  the inductive type `Value` (JSON-ish scalars, lists, plus
  `datetime.date` / `datetime.datetime` objects).
* Python `==` on those values is `pyEq` (note `True == 1`, `False == 0`),
  Python truthiness is `pyTruthy`, `str(...)` is `pyStr`.
* A raised `django.core.validators.ValidationError` is the `VResult.vfail`
  outcome (tagged with the error taxonomy kind corresponding to the raise
  site's message); any other uncaught Python exception (`TypeError` from
  `str.join` on a non-string, from `set(...)` on a non-iterable, from
  `x in None`, or from `strptime` on a non-string) is `VResult.pyerror`.
* The regular-expression pattern stored in `validation_regex` is embedded
  as a small regex AST `Regex`; `re.match(pattern, value)` (Python's
  match-at-position-0, possibly-partial match) is `Regex.matchPrefix`, and
  `re.fullmatch`-style whole-string matching is `Regex.matchFull`.  A blank
  pattern (`''`, falsy in the source) is `Option.none`.
* Attached custom-field data (`instance.custom_field_data`, a Python dict)
  is an association list `Inst` with dict-like operations; the record-type
  universe handed to the synchroniser is a `World`.  The ORM lookups
  `custom_field_data__contains=<name>` and
  `custom_field_data__<name>__isnull=False` are the external
  "filter instances by presence/absence of a given attached-data key"
  interface and are modelled as key-presence filters on the instance's
  mapping.
-/

/-- Python runtime values flowing through the custom-field code:
`None`, `str`, `int`, `bool`, lists, and `datetime.date` /
`datetime.datetime` objects (a `datetime` is *not* of exact type `date`,
which matters for the `type(value) is not date` check). -/
inductive Value where
  | none : Value
  | str (s : String) : Value
  | int (n : Int) : Value
  | bool (b : Bool) : Value
  | list (elems : List Value) : Value
  | date (y m d : Nat) : Value
  | datetime (y m d : Nat) : Value

/-- Python `==` on `Value`s.  `True == 1` and `False == 0` hold; a
`datetime.date` never equals a `datetime.datetime`; everything else is
structural. -/
def pyEq : Value → Value → Bool
  | .none, .none => true
  | .str a, .str b => a == b
  | .int a, .int b => a == b
  | .int a, .bool b => a == (if b then (1 : Int) else 0)
  | .bool a, .int b => (if a then (1 : Int) else 0) == b
  | .bool a, .bool b => a == b
  | .date y m d, .date y' m' d' => y == y' && m == m' && d == d'
  | .datetime y m d, .datetime y' m' d' => y == y' && m == m' && d == d'
  | .list xs, .list ys => pyEqList xs ys
  | _, _ => false
where pyEqList : List Value → List Value → Bool
  | [], [] => true
  | x :: xs, y :: ys => pyEq x y && pyEqList xs ys
  | _, _ => false

/-- Python truthiness of a `Value`. -/
def pyTruthy : Value → Bool
  | .none => false
  | .str s => !(s == "")
  | .int n => !(n == 0)
  | .bool b => b
  | .list xs => !xs.isEmpty
  | .date _ _ _ => true
  | .datetime _ _ _ => true

/-- Python membership `v in cs` where `cs` is a list of strings
(e.g. `CustomField.choices`). -/
def pymemStr (v : Value) (cs : List String) : Bool :=
  cs.any (fun c => pyEq v (.str c))

/-- Python membership `v in l` for a list of values. -/
def pymem (v : Value) (l : List Value) : Bool :=
  l.any (fun w => pyEq v w)

/-- Python `repr` of a value (used by `str` on lists). -/
def pyRepr : Value → String
  | .none => "None"
  | .str s => "'" ++ s ++ "'"
  | .int n => toString n
  | .bool b => if b then "True" else "False"
  | .date y m d => "datetime.date(" ++ toString y ++ ", " ++ toString m ++ ", " ++ toString d ++ ")"
  | .datetime y m d =>
      "datetime.datetime(" ++ toString y ++ ", " ++ toString m ++ ", " ++ toString d ++ ", 0, 0)"
  | .list xs => "[" ++ pyReprList xs ++ "]"
where pyReprList : List Value → String
  | [] => ""
  | [x] => pyRepr x
  | x :: xs => pyRepr x ++ ", " ++ pyReprList xs

/-- Left-pad a numeral with zeros to the given width. -/
def padZero (width n : Nat) : String :=
  let s := toString n
  String.mk (List.replicate (width - s.length) '0') ++ s

/-- Python `str(...)` of a value: `str(None) = "None"`, `str(True) =
"True"`, dates render ISO, lists render via element `repr`s. -/
def pyStr : Value → String
  | .none => "None"
  | .str s => s
  | .int n => toString n
  | .bool b => if b then "True" else "False"
  | .date y m d => padZero 4 y ++ "-" ++ padZero 2 m ++ "-" ++ padZero 2 d
  | .datetime y m d => padZero 4 y ++ "-" ++ padZero 2 m ++ "-" ++ padZero 2 d ++ " 00:00:00"
  | .list xs => "[" ++ pyRepr.pyReprList xs ++ "]"

/-- Python `set(value)`: `some` of the (not-deduplicated—irrelevant for
subset tests) element list when `value` is iterable with hashable
elements; `Option.none` when `set(...)` raises `TypeError` (non-iterable
value, or an unhashable list element).  Iterating a string yields its
characters as one-character strings. -/
def pySet : Value → Option (List Value)
  | .list xs => if xs.any (fun x => match x with | .list _ => true | _ => false)
      then Option.none else some xs
  | .str s => some (s.data.map (fun c => .str (String.mk [c])))
  | _ => Option.none

/-- Python `', '.join(value)`: `some` when every joined element is a
string (a string value joins its characters), `Option.none` for the
`TypeError` raised on a non-string element or a non-iterable value. -/
def pyJoin : Value → Option String
  | .str s => some (", ".intercalate (s.data.map (fun c => String.mk [c])))
  | .list xs => if xs.all (fun x => match x with | .str _ => true | _ => false)
      then some (", ".intercalate (xs.map pyStr)) else Option.none
  | _ => Option.none

/-- The source's `value not in [None, '']` guard: is the value "empty"? -/
def isEmptyVal (v : Value) : Bool :=
  pyEq v .none || pyEq v (.str "")

/-- Python identity test `v is None`. -/
def isNoneVal : Value → Bool
  | .none => true
  | _ => false

/-- Abstract syntax of the regular-expression patterns stored in
`validation_regex`.  `eos` is the `$` anchor (matches only at end of
input); `re.match` anchors at position 0 by itself, so a leading `^` is
the identity and is not represented. -/
inductive Regex where
  | emptyset : Regex
  | eps : Regex
  | char (c : Char) : Regex
  | anyc : Regex
  | alt (r₁ r₂ : Regex) : Regex
  | cat (r₁ r₂ : Regex) : Regex
  | star (r : Regex) : Regex
  | eos : Regex
deriving DecidableEq

/-- Does the pattern contain no `$` anchor? -/
def Regex.eosFree : Regex → Bool
  | .emptyset | .eps | .char _ | .anyc => true
  | .alt r₁ r₂ => r₁.eosFree && r₂.eosFree
  | .cat r₁ r₂ => r₁.eosFree && r₂.eosFree
  | .star r => r.eosFree
  | .eos => false

/-- Position-aware nullability: can the pattern match the empty string at
the current position?  `atEnd` records whether the position is the end of
the input, which is what the `$` anchor tests. -/
def Regex.nullable (atEnd : Bool) : Regex → Bool
  | .emptyset => false
  | .eps => true
  | .char _ => false
  | .anyc => false
  | .alt r₁ r₂ => r₁.nullable atEnd || r₂.nullable atEnd
  | .cat r₁ r₂ => r₁.nullable atEnd && r₂.nullable atEnd
  | .star _ => true
  | .eos => atEnd

/-- Brzozowski derivative by one character.  Consuming a character means
the current position is not the end of input, so the `cat` rule uses
mid-string nullability. -/
def Regex.deriv : Regex → Char → Regex
  | .emptyset, _ => .emptyset
  | .eps, _ => .emptyset
  | .char c, a => if c = a then .eps else .emptyset
  | .anyc, _ => .eps
  | .alt r₁ r₂, a => .alt (r₁.deriv a) (r₂.deriv a)
  | .cat r₁ r₂, a =>
      .alt (.cat (r₁.deriv a) r₂) (if r₁.nullable false then r₂.deriv a else .emptyset)
  | .star r, a => .cat (r.deriv a) (.star r)
  | .eos, _ => .emptyset

/-- Whole-string match (Python `re.fullmatch(pattern, s)` is truthy). -/
def Regex.matchFull : Regex → List Char → Bool
  | r, [] => r.nullable true
  | r, c :: cs => (r.deriv c).matchFull cs

/-- Match at position 0 consuming any prefix (Python `re.match(pattern,
s)` is truthy). -/
def Regex.matchPrefix : Regex → List Char → Bool
  | r, [] => r.nullable true
  | r, c :: cs => r.nullable false || (r.deriv c).matchPrefix cs

/-- CPython `datetime.strptime(s, '%Y-%m-%d')` succeeds: three
dash-separated all-digit components (year up to 4 digits, at least 1;
month and day 1–2 digits), forming a valid proleptic-Gregorian date with
year ≥ 1. -/
def isLeapYear (y : Nat) : Bool :=
  y % 4 == 0 && (y % 100 != 0 || y % 400 == 0)

/-- Number of days in the given month of the given year. -/
def daysInMonth (y m : Nat) : Nat :=
  if m == 2 then (if isLeapYear y then 29 else 28)
  else if m == 4 || m == 6 || m == 9 || m == 11 then 30
  else 31

/-- One numeric component of a strptime'd date string: non-empty, all
digits, at most `width` characters. -/
def digitField (width : Nat) (s : String) : Bool :=
  !(s == "") && s.data.all Char.isDigit && s.length ≤ width

/-- Numeric value of an all-digit string. -/
def digitsToNat (s : String) : Nat :=
  s.data.foldl (fun acc c => acc * 10 + (c.toNat - '0'.toNat)) 0

/-- `datetime.strptime(s, '%Y-%m-%d')` parses without error. -/
def strptimeYmdOk (s : String) : Bool :=
  match s.splitOn "-" with
  | [ys, ms, ds] =>
      digitField 4 ys && digitField 2 ms && digitField 2 ds &&
      (let y := digitsToNat ys
       let m := digitsToNat ms
       let d := digitsToNat ds
       1 ≤ y && 1 ≤ m && m ≤ 12 && 1 ≤ d && d ≤ daysInMonth y m)
  | _ => false

/-- The closed set of custom-field types (`CustomFieldTypeChoices`). -/
inductive CFType where
  | text | integer | boolean | date | url | select | multiselect
deriving DecidableEq

/-- The `CustomField` model's fields, as far as `clean`, `validate`,
`to_form_field` and the data-synchronisation methods read them.
`default` is a nullable JSON field (`Value.none` = SQL null);
`validation_regex` is blank (`''`) or a pattern (embedded as its AST);
`choices` is a nullable array of strings; `content_types` is the set of
assigned record types (each named by a string). -/
structure CustomField where
  type : CFType
  name : String
  label : String
  description : String
  required : Bool
  default : Value
  weight : Nat
  validation_minimum : Option Int
  validation_maximum : Option Int
  validation_regex : Option Regex
  choices : Option (List String)
  content_types : List String

/-- Error kinds of the `ValidationError`s raised in
`CustomField.validate`, one per raise site (messages elided):
`typeMismatch` = "Value must be a string." / "Value must be an integer."
/ "Value must be true or false."; `outOfRange` = the min/max messages;
`patternMismatch` = "Value must match regex ..."; `invalidDateFormat` =
"Date values must be in the format YYYY-MM-DD."; `invalidChoice` /
`invalidChoiceSet` = the select/multiselect messages; `requiredEmpty` =
"Required field cannot be empty.". -/
inductive VErrKind where
  | requiredEmpty | typeMismatch | outOfRange | patternMismatch
  | invalidDateFormat | invalidChoice | invalidChoiceSet
deriving DecidableEq

/-- Outcome of running `CustomField.validate`: normal return, a raised
`ValidationError`, or any other uncaught Python exception. -/
inductive VResult where
  | ok : VResult
  | vfail (k : VErrKind) : VResult
  | pyerror : VResult
deriving DecidableEq

/-- `CustomField.validate(self, value)`.  The source is a sequence of
`if self.type == ...` blocks guarded by `if value not in [None, '']`;
since `type` is a single enum value, exactly one block applies, rendered
here as a `match` on the type.  `pyerror` outcomes arise from
`value not in None` (select/multiselect with `choices` null),
`set(value)` on a non-iterable value or unhashable element,
`', '.join(value)` on non-string elements when building the multiselect
error message, and `strptime` applied to a non-string. -/
def validate (cf : CustomField) (value : Value) : VResult :=
  if !(isEmptyVal value) then
    match cf.type with
    | .text =>
        match value with
        | .str s =>
            match cf.validation_regex with
            | some r => if r.matchPrefix s.data then .ok else .vfail .patternMismatch
            | Option.none => .ok
        | _ => .vfail .typeMismatch
    | .integer =>
        match value with
        | .int n =>
            match cf.validation_minimum with
            | some lo => if n < lo then .vfail .outOfRange
                else match cf.validation_maximum with
                  | some hi => if n > hi then .vfail .outOfRange else .ok
                  | Option.none => .ok
            | Option.none =>
                match cf.validation_maximum with
                | some hi => if n > hi then .vfail .outOfRange else .ok
                | Option.none => .ok
        | _ => .vfail .typeMismatch
    | .boolean =>
        if pymem value [.bool true, .bool false, .int 1, .int 0] then .ok
        else .vfail .typeMismatch
    | .date =>
        match value with
        | .date _ _ _ => .ok
        | .str s => if strptimeYmdOk s then .ok else .vfail .invalidDateFormat
        | _ => .pyerror
    | .url => .ok
    | .select =>
        match cf.choices with
        | some cs => if pymemStr value cs then .ok else .vfail .invalidChoice
        | Option.none => .pyerror
    | .multiselect =>
        match pySet value with
        | some elems =>
            match cf.choices with
            | some cs =>
                if elems.all (fun e => pymemStr e cs) then .ok
                else match pyJoin value with
                  | some _ => .vfail .invalidChoiceSet
                  | Option.none => .pyerror
            | Option.none => .pyerror
        | Option.none => .pyerror
  else if cf.required then .vfail .requiredEmpty
  else .ok

/-- Outcome of `CustomField.clean`: normal return, a `ValidationError`
attributed to one attribute (the key of the dict passed to
`ValidationError({...})`), or an uncaught non-`ValidationError`
exception. -/
inductive CleanResult where
  | ok : CleanResult
  | err (attr : String) : CleanResult
  | pyerror : CleanResult
deriving DecidableEq

/-- The value `clean` actually validates for the default:
`str(self.default) if self.type == TYPE_TEXT else self.default`. -/
def coercedDefault (cf : CustomField) : Value :=
  if cf.type = .text then .str (pyStr cf.default) else cf.default

/-- The source's `self.default not in self.choices` (line 205): Python
`in` on `None` raises `TypeError` (`Option.none`); otherwise the boolean
"not a member". -/
def notInChoices (v : Value) (choices : Option (List String)) : Option Bool :=
  match choices with
  | some cs => some (!(pymemStr v cs))
  | Option.none => Option.none

/-- Truthiness of the `choices` field (`None` and `[]` are falsy). -/
def choicesTruthy (choices : Option (List String)) : Bool :=
  match choices with
  | some cs => !cs.isEmpty
  | Option.none => false

/-- `CustomField.clean(self)`: the definition-save validation, with the
checks in source order.  The first failing check raises; `clean` returns
the attribute the raised `ValidationError` is keyed on. -/
def clean (cf : CustomField) : CleanResult :=
  -- Validate the field's default value (if any): `if self.default is not None`
  let step1 : CleanResult :=
    if isNoneVal cf.default then .ok
    else
      match validate cf (coercedDefault cf) with
      | .ok => .ok
      | .vfail _ => .err "default"
      | .pyerror => .pyerror
  match step1 with
  | .ok =>
      -- Minimum/maximum values can be set only for numeric fields
      if cf.validation_minimum.isSome ∧ cf.type ≠ .integer then .err "validation_minimum"
      else if cf.validation_maximum.isSome ∧ cf.type ≠ .integer then .err "validation_maximum"
      -- Regex validation can be set only for text fields
      else if cf.validation_regex.isSome ∧ cf.type ≠ .text ∧ cf.type ≠ .url then
        .err "validation_regex"
      -- Choices can be set only on selection fields
      else if choicesTruthy cf.choices ∧ cf.type ≠ .select ∧ cf.type ≠ .multiselect then
        .err "choices"
      -- A selection field must have at least two choices defined
      else if cf.type = .select ∧ choicesTruthy cf.choices ∧
          (cf.choices.getD []).length < 2 then
        .err "choices"
      -- A selection field's default (if any) must be present in its available choices
      else if cf.type = .select ∧ pyTruthy cf.default then
        match notInChoices cf.default cf.choices with
        | some true => .err "default"
        | some false => .ok
        | Option.none => .pyerror
      else .ok
  | r => r

/-- The pieces of the Django form field built by
`CustomField.to_form_field` that the core determines: the effective
`required` flag, the `initial` value, and (for selection fields) the
widget's choice list after the optional blank prefix.  Label/help-text
and widget classes belong to the rendering layer. -/
structure FormField where
  required : Bool
  initial : Value
  widgetChoices : Option (List String)

/-- `CustomField.to_form_field(self, set_initial, enforce_required,
for_csv_import)`, restricted to the data above.  `Option.none` is the
`TypeError` raised when a selection field's `choices` is SQL null (the
source iterates `self.choices` at line 247).  The blank choice prepended
by `add_blank_choice` is rendered as `""`. -/
def to_form_field (cf : CustomField) (set_initial enforce_required for_csv_import : Bool) :
    Option FormField :=
  let initial := if set_initial then cf.default else .none
  let required := if enforce_required then cf.required else false
  match cf.type with
  | .select | .multiselect =>
      match cf.choices with
      | some cs =>
          let default_choice : Value := if pymemStr cf.default cs then cf.default else .none
          let widget : List String :=
            if !required || isNoneVal default_choice then "" :: cs else cs
          -- Set the initial value to the first available choice (if any)
          let initial := if set_initial && pyTruthy default_choice then default_choice else initial
          some { required := required, initial := initial, widgetChoices := some widget }
      | Option.none => Option.none
  | _ => some { required := required, initial := initial, widgetChoices := Option.none }

/-- One record instance's `custom_field_data` dict, as an association
list in insertion order (a Python dict; well-formedness = keys nodup). -/
abbrev Inst := List (String × Value)

/-- All record instances, grouped by record type (content type). -/
abbrev World := List (String × List Inst)

/-- Key presence in a `custom_field_data` dict. -/
def hasKey (d : Inst) (k : String) : Bool :=
  d.any (fun p => p.1 == k)

/-- Dict lookup. -/
def getVal (d : Inst) (k : String) : Option Value :=
  (d.find? (fun p => p.1 == k)).map (fun p => p.2)

/-- Dict item assignment `d[k] = v`: replaces in place when the key
exists, appends otherwise (Python dicts preserve insertion order). -/
def setKey (d : Inst) (k : String) (v : Value) : Inst :=
  if hasKey d k then d.map (fun p => if p.1 == k then (k, v) else p)
  else d ++ [(k, v)]

/-- Dict deletion `del d[k]`. -/
def delKey (d : Inst) (k : String) : Inst :=
  d.filter (fun p => !(p.1 == k))

/-- The shared bulk-loop shape of the three synchroniser methods
(`for ct in content_types: instances = model.objects...; for instance in
instances: ...; bulk_update(...)`): apply a per-instance update to every
instance of the listed content types.  Batching via `bulk_update(...,
batch_size=100)` only chunks the persistence calls and does not affect
the per-instance result. -/
def syncMap (g : Inst → Inst) (content_types : List String) (w : World) : World :=
  w.map (fun e => if e.1 ∈ content_types then (e.1, e.2.map g) else e)

/-- Effect of `populate_initial_data` on one instance: instances already
containing the key are excluded by the queryset filter, the rest get
`custom_field_data[name] = default`. -/
def populateInst (cf : CustomField) (d : Inst) : Inst :=
  if hasKey d cf.name then d else setKey d cf.name cf.default

/-- `CustomField.populate_initial_data(self, content_types)`: for each
given content type, every instance not already containing the key gets
`custom_field_data[self.name] = self.default`.  The queryset
`exclude(custom_field_data__contains=self.name)` is the external
filter-by-key-absence interface (§6 of the spec). -/
def populate_initial_data (cf : CustomField) (content_types : List String) (w : World) : World :=
  syncMap (populateInst cf) content_types w

/-- Effect of `remove_stale_data` on one instance: instances whose data
contains the key (`custom_field_data__<name>__isnull=False`, i.e. key
present) have it deleted. -/
def removeInst (cf : CustomField) (d : Inst) : Inst :=
  if hasKey d cf.name then delKey d cf.name else d

/-- `CustomField.remove_stale_data(self, content_types)`. -/
def remove_stale_data (cf : CustomField) (content_types : List String) (w : World) : World :=
  syncMap (removeInst cf) content_types w

/-- Effect of `rename_object_data` on one matched instance:
`custom_field_data[new_name] = custom_field_data.pop(old_name)`. -/
def renameInst (d : Inst) (old_name new_name : String) : Inst :=
  setKey (delKey d old_name) new_name ((getVal d old_name).getD .none)

/-- `CustomField.rename_object_data(self, old_name, new_name)`: ranges
over `self.content_types.all()` (the definition's own assigned record
types, not a caller-supplied set), touching only instances whose data
contains `old_name`. -/
def rename_object_data (cf : CustomField) (old_name new_name : String) (w : World) : World :=
  syncMap (fun d => if hasKey d old_name then renameInst d old_name new_name else d)
    cf.content_types w

/-! Concrete field definitions and worlds used by the counterexample and
witness theorems below.  `CustomField` fields in order: type, name, label,
description, required, default, weight, validation_minimum,
validation_maximum, validation_regex, choices, content_types. -/

/-- A text field whose default is the string "red", assigned to "site". -/
def cf1 : CustomField :=
  ⟨.text, "color", "", "", false, .str "red", 100, Option.none, Option.none,
    Option.none, Option.none, ["site"]⟩

/-- A text field with a null default, assigned to "site". -/
def cf1n : CustomField :=
  ⟨.text, "color", "", "", false, .none, 100, Option.none, Option.none,
    Option.none, Option.none, ["site"]⟩

/-- One "site" instance already carrying `color = "blue"`. -/
def w1 : World := [("site", [[("color", Value.str "blue")]])]

/-- A select field whose `choices` list is empty. -/
def cf2 : CustomField :=
  ⟨.select, "field1", "", "", false, .none, 100, Option.none, Option.none,
    Option.none, some [], []⟩

/-- A select field with exactly one choice. -/
def cf2a : CustomField :=
  ⟨.select, "field1", "", "", false, .none, 100, Option.none, Option.none,
    Option.none, some ["a"], []⟩

/-- A text field whose default is the integer 42. -/
def cf3 : CustomField :=
  ⟨.text, "field1", "", "", false, .int 42, 100, Option.none, Option.none,
    Option.none, Option.none, []⟩

/-- An integer field whose default is the string "x". -/
def cf3a : CustomField :=
  ⟨.integer, "field1", "", "", false, .str "x", 100, Option.none, Option.none,
    Option.none, Option.none, []⟩

/-- A select field whose default "z" is not among its choices. -/
def cf4 : CustomField :=
  ⟨.select, "field1", "", "", false, .str "z", 100, Option.none, Option.none,
    Option.none, some ["a", "b"], []⟩

/-- A required select field whose default "a" is among its choices. -/
def cf4a : CustomField :=
  ⟨.select, "field1", "", "", true, .str "a", 100, Option.none, Option.none,
    Option.none, some ["a", "b"], []⟩

/-- An optional text field validated by the single-character pattern `A`. -/
def cf5 : CustomField :=
  ⟨.text, "field1", "", "", false, .none, 100, Option.none, Option.none,
    some (.char 'A'), Option.none, []⟩

/-- A required text field. -/
def cf6 : CustomField :=
  ⟨.text, "field1", "", "", true, .none, 100, Option.none, Option.none,
    Option.none, Option.none, []⟩

/-- An integer field with `validation_minimum = 1`, `validation_maximum = 10`. -/
def cf8 : CustomField :=
  ⟨.integer, "field1", "", "", false, .none, 100, some 1, some 10,
    Option.none, Option.none, []⟩

/-- A multiselect field with choices a, b, c. -/
def cf9 : CustomField :=
  ⟨.multiselect, "field1", "", "", false, .none, 100, Option.none, Option.none,
    Option.none, some ["a", "b", "c"], []⟩

/-- A date field. -/
def cf10 : CustomField :=
  ⟨.date, "field1", "", "", false, .none, 100, Option.none, Option.none,
    Option.none, Option.none, []⟩

/-- A field named "old" assigned to "site" (rename source). -/
def cf7 : CustomField :=
  ⟨.text, "old", "", "", false, .none, 100, Option.none, Option.none,
    Option.none, Option.none, ["site"]⟩

/-- One "site" instance carrying both the old and the new key. -/
def w7 : World := [("site", [[("old", Value.str "1"), ("new", Value.str "2")]])]

/-! ### Helper lemmas -/

/-- A truthy value is not "empty" in the sense of `value not in [None, '']`. -/
theorem isEmptyVal_eq_false_of_pyTruthy (v : Value) (h : pyTruthy v = true) :
    isEmptyVal v = false := by
  cases v <;> simp_all [pyTruthy, isEmptyVal, pyEq]

/-! ### C6: empty values and the required flag -/

/-- C6: for every field definition and every absent or empty value (`None`
or `''`), `validate` fails with `RequiredFieldEmpty` iff the definition is
required; when it is not required, `validate` returns successfully without
running any type-specific check. -/
theorem C6_empty_value_required_iff (cf : CustomField) (v : Value)
    (h : v = Value.none ∨ v = Value.str "") :
    ((validate cf v = .vfail .requiredEmpty) ↔ cf.required = true) ∧
    (cf.required = false → validate cf v = .ok) := by
  rcases h with h | h <;> subst h <;> cases hr : cf.required <;>
    simp [validate, isEmptyVal, pyEq, hr]

/-- C6 witness: on the required text field `cf6`, `validate` rejects `None`
with `RequiredFieldEmpty`. -/
theorem C6_witness : validate cf6 Value.none = .vfail .requiredEmpty :=
  (C6_empty_value_required_iff cf6 Value.none (Or.inl rfl)).1.mpr rfl

/-! ### C8: integer bounds -/

/-- C8: for an integer-type definition and a non-empty value, `validate`
succeeds iff the value is an integer within `[validation_minimum,
validation_maximum]` inclusive (absent bounds are unbounded), and a value
below the minimum or above the maximum fails with `OutOfRange`. -/
theorem C8_integer_bounds (cf : CustomField) (v : Value)
    (h1 : cf.type = .integer) (h2 : isEmptyVal v = false) :
    ((validate cf v = .ok) ↔ ∃ n : Int, v = .int n ∧
        (∀ lo, cf.validation_minimum = some lo → lo ≤ n) ∧
        (∀ hi, cf.validation_maximum = some hi → n ≤ hi)) ∧
    (∀ n : Int, v = .int n →
        ((∃ lo, cf.validation_minimum = some lo ∧ n < lo) ∨
            (∃ hi, cf.validation_maximum = some hi ∧ hi < n)) →
        validate cf v = .vfail .outOfRange) := by
  constructor
  · cases v <;>
      simp only [validate, h1, h2, Bool.not_false, if_true] <;>
      try simp
    case int n =>
      cases hlo : cf.validation_minimum <;> cases hhi : cf.validation_maximum <;>
        simp_all <;> split_ifs <;> simp_all <;> omega
  · rintro n rfl h
    simp only [validate, h1, h2, Bool.not_false, if_true]
    rcases h with ⟨lo, hlo, hn⟩ | ⟨hi, hhi, hn⟩
    · simp [hlo, hn]
    · cases hlo : cf.validation_minimum with
      | none => simp [hhi, hn, not_lt.mpr (le_of_lt hn)]
      | some lo => by_cases hl : n < lo <;> simp_all <;> omega

/-- C8 witness: on `cf8` (min 1, max 10), `validate(def, 0)` fails with
`OutOfRange` and `validate(def, 10)` succeeds. -/
theorem C8_witness :
    validate cf8 (Value.int 0) = .vfail .outOfRange ∧ validate cf8 (Value.int 10) = .ok :=
  ⟨(C8_integer_bounds cf8 (Value.int 0) rfl rfl).2 0 rfl (Or.inl ⟨1, rfl, by decide⟩),
   (C8_integer_bounds cf8 (Value.int 10) rfl rfl).1.mpr
     ⟨10, rfl, fun lo hlo => by injection hlo with h; omega,
       fun hi hhi => by injection hhi with h; omega⟩⟩

/-! ### C10: date validation is not total -/

/-- C10: for a date-type definition, a non-empty value that is neither a
`datetime.date` object nor a string (an integer, or a `datetime` whose
exact type is not `date`) makes `validate` raise an untyped error
(`strptime` receives a non-string and raises `TypeError`, which the
`except ValueError` clause does not catch) instead of returning the
structured `InvalidDateFormat` failure. -/
theorem C10_date_validate_not_total (cf : CustomField) (v : Value)
    (h1 : cf.type = .date) (h2 : isEmptyVal v = false)
    (h3 : ∀ y m d, v ≠ .date y m d) (h4 : ∀ s, v ≠ .str s) :
    validate cf v = .pyerror := by
  cases v with
  | none => simp [isEmptyVal, pyEq] at h2
  | str s => exact absurd rfl (h4 s)
  | date y m d => exact absurd rfl (h3 y m d)
  | _ => simp [validate, h1, h2]

/-- C10 witness: on the date field `cf10`, validating the integer 5 or a
`datetime` object raises an untyped error. -/
theorem C10_witness :
    validate cf10 (Value.int 5) = .pyerror ∧ validate cf10 (Value.datetime 2021 1 1) = .pyerror :=
  ⟨C10_date_validate_not_total cf10 (Value.int 5) rfl rfl
      (fun _ _ _ h => Value.noConfusion h) (fun _ h => Value.noConfusion h),
   C10_date_validate_not_total cf10 (Value.datetime 2021 1 1) rfl rfl
      (fun _ _ _ h => Value.noConfusion h) (fun _ h => Value.noConfusion h)⟩

/-! ### C2: select fields with fewer than two choices -/

/-- C2 counterexample: the select field `cf2` has an empty `choices` list,
yet `clean` accepts it — the check at line 199 is guarded by
`self.choices and ...`, so an empty or absent choices list is not
rejected, contrary to the claim's "including an empty or absent choices
list". -/
theorem C2_counterexample :
    cf2.type = .select ∧ cf2.choices = some [] ∧ clean cf2 = .ok :=
  ⟨rfl, rfl, by decide⟩

/-- C2 amended: definition-save validation rejects a select definition
whose `choices` list is present and non-empty with fewer than two entries
(i.e. exactly one choice); an empty or absent choices list is not
rejected by this check. -/
theorem C2_select_short_choices_rejected (cf : CustomField) (cs : List String)
    (h1 : cf.type = .select) (h2 : cf.choices = some cs) (h3 : cs ≠ [])
    (h4 : cs.length < 2) :
    clean cf ≠ .ok := by
  unfold clean
  have hempty : cs.isEmpty = false := by
    cases cs with
    | nil => exact absurd rfl h3
    | cons a as => rfl
  cases hd : cf.default <;> cases hv : validate cf (coercedDefault cf) <;>
    simp_all [choicesTruthy] <;> split_ifs <;> simp_all

/-- C2 witness: `clean` rejects the one-choice select field `cf2a`. -/
theorem C2_witness : clean cf2a ≠ .ok :=
  C2_select_short_choices_rejected cf2a ["a"] rfl rfl (by decide) (by decide)

/-! ### C3: validation of the default value at save time -/

/-- C3 counterexample: the text field `cf3` has default `42`, which
`validate` rejects for the declared type (not a string), yet `clean`
accepts the definition — `clean` validates `str(self.default)` = `"42"`
for text fields, not the default itself, so the claimed iff fails. -/
theorem C3_counterexample :
    validate cf3 cf3.default = .vfail .typeMismatch ∧ clean cf3 = .ok := by
  constructor <;> decide

/-- If `validate` accepts a truthy default of a select field, the default
is a member of its (non-null) choices, so the check at source line 205
cannot fire. -/
theorem select_default_mem_of_validate_ok (cf : CustomField)
    (hsel : cf.type = .select) (htr : pyTruthy cf.default = true)
    (hv : validate cf (coercedDefault cf) = .ok) :
    notInChoices cf.default cf.choices = some false := by
  have hcd : coercedDefault cf = cf.default := by
    unfold coercedDefault
    rw [hsel]
    simp
  rw [hcd] at hv
  unfold validate at hv
  rw [isEmptyVal_eq_false_of_pyTruthy _ htr, hsel] at hv
  simp only [Bool.not_false, if_true] at hv
  cases hch : cf.choices with
  | none => rw [hch] at hv; exact absurd hv (by simp)
  | some cs =>
      rw [hch] at hv
      by_cases hm : pymemStr cf.default cs = true
      · simp [notInChoices, hch, hm]
      · simp [hm] at hv

/-- C3 amended: for a definition whose default is present, `clean` fails
with an error attributed to `default` iff `validate` rejects the *coerced*
default — `str(default)` when the type is text, the default itself
otherwise — with a `ValidationError`.  (The original claim fails because
of the text-type string coercion: a default that `validate` rejects can be
accepted at save time when its string form passes.) -/
theorem C3_default_error_iff (cf : CustomField) (h : cf.default ≠ Value.none) :
    (clean cf = .err "default") ↔ ∃ k, validate cf (coercedDefault cf) = .vfail k := by
  have h' : isNoneVal cf.default = false := by
    cases hd : cf.default <;> simp_all [isNoneVal]
  cases hv : validate cf (coercedDefault cf) with
  | vfail k => simp [clean, h', hv]
  | pyerror => simp [clean, h', hv]
  | ok =>
      simp only [clean, h', hv, Bool.false_eq_true, if_false]
      constructor
      · intro hc
        split_ifs at hc with h1 h2 h3 h4 h5 h6
        · exact absurd hc (by simp)
        · exact absurd hc (by simp)
        · exact absurd hc (by simp)
        · exact absurd hc (by simp)
        · exact absurd hc (by simp)
        · rw [select_default_mem_of_validate_ok cf h6.1 h6.2 hv] at hc
          exact absurd hc (by simp)
      · rintro ⟨k, hk⟩
        exact absurd hk (by simp)

/-- C3 witness: on `cf3a`, an integer field whose default is the string
"x", `clean` fails with an error attributed to `default`. -/
theorem C3_witness : clean cf3a = .err "default" :=
  (C3_default_error_iff cf3a (fun hh => Value.noConfusion hh)).mpr
    ⟨.typeMismatch, by decide⟩

/-! ### C5: regex validation is a prefix match -/

/-- For an anchor-free pattern, nullability does not depend on the
position. -/
theorem Regex.nullable_of_eosFree (r : Regex) (h : r.eosFree = true) (b : Bool) :
    r.nullable b = r.nullable true := by
  induction r <;> simp_all [eosFree, nullable]

/-- Derivatives preserve anchor-freeness. -/
theorem Regex.eosFree_deriv (r : Regex) (c : Char) (h : r.eosFree = true) :
    (r.deriv c).eosFree = true := by
  induction r with
  | emptyset | eps | anyc | eos => simp_all [eosFree, deriv]
  | char a => simp only [deriv]; split <;> rfl
  | alt r₁ r₂ ih₁ ih₂ => simp_all [eosFree, deriv]
  | star r ih => simp_all [eosFree, deriv]
  | cat r₁ r₂ ih₁ ih₂ =>
      rw [eosFree, Bool.and_eq_true] at h
      simp only [deriv, eosFree, Bool.and_eq_true]
      refine ⟨⟨ih₁ h.1, h.2⟩, ?_⟩
      split
      · exact ih₂ h.2
      · rfl

/-- The void pattern matches no prefix. -/
theorem Regex.matchPrefix_emptyset (l : List Char) :
    Regex.emptyset.matchPrefix l = false := by
  induction l <;> simp_all [matchPrefix, nullable, deriv]

/-- Prefix matching distributes over alternation. -/
theorem Regex.matchPrefix_alt (r₁ r₂ : Regex) (l : List Char) :
    (Regex.alt r₁ r₂).matchPrefix l = (r₁.matchPrefix l || r₂.matchPrefix l) := by
  induction l generalizing r₁ r₂ with
  | nil => simp [matchPrefix, nullable]
  | cons c cs ih =>
      simp only [matchPrefix, nullable, deriv, ih]
      cases r₁.nullable false <;> cases r₂.nullable false <;> simp [Bool.or_assoc,
        Bool.or_comm, Bool.or_left_comm]

/-- `re.match` with an anchor-free pattern succeeds exactly when some
prefix of the input is a whole-string match. -/
theorem Regex.matchPrefix_iff_prefix_fullmatch (r : Regex) (l : List Char)
    (h : r.eosFree = true) :
    r.matchPrefix l = true ↔ ∃ p q, l = p ++ q ∧ r.matchFull p = true := by
  induction l generalizing r with
  | nil =>
      constructor
      · intro hm; exact ⟨[], [], rfl, hm⟩
      · rintro ⟨p, q, hpq, hf⟩
        obtain ⟨rfl, rfl⟩ : p = [] ∧ q = [] := by
          constructor <;> [cases p; cases q] <;> simp_all
        exact hf
  | cons c cs ih =>
      simp only [matchPrefix, Bool.or_eq_true]
      constructor
      · rintro (hn | hm)
        · refine ⟨[], c :: cs, rfl, ?_⟩
          show r.nullable true = true
          rw [← r.nullable_of_eosFree h false]
          exact hn
        · obtain ⟨p, q, hpq, hf⟩ := (ih (r.deriv c) (r.eosFree_deriv c h)).mp hm
          exact ⟨c :: p, q, by simp [hpq], hf⟩
      · rintro ⟨p, q, hpq, hf⟩
        cases p with
        | nil =>
            left
            rw [r.nullable_of_eosFree h false]
            exact hf
        | cons c' p' =>
            rw [List.cons_append] at hpq
            injection hpq with h1 h2
            subst h1
            right
            exact (ih (r.deriv c) (r.eosFree_deriv c h)).mpr ⟨p', q, h2, hf⟩

/-- Appending the `$` anchor turns `re.match` into a whole-string match. -/
theorem Regex.matchPrefix_cat_eos (r : Regex) (l : List Char) :
    (Regex.cat r .eos).matchPrefix l = r.matchFull l := by
  induction l generalizing r with
  | nil => simp [matchPrefix, matchFull, nullable]
  | cons c cs ih =>
      simp only [matchPrefix, matchFull, nullable, deriv, Bool.and_false,
        Bool.false_or, matchPrefix_alt, ite_self, matchPrefix_emptyset, Bool.or_false, ih]

/-- C5 amended: for a text-type definition with a regex and every
*non-empty* string value, `validate` succeeds iff the pattern matches at
position 0 consuming some prefix (`re.match` semantics); for anchor-free
patterns that is exactly "some prefix of the value is a whole-string
match", and a pattern with the explicit `$` anchor matches only the whole
string.  (The original claim's "every string value" fails at the empty
string, which skips the regex check entirely.) -/
theorem C5_text_regex_prefix_match (cf : CustomField) (r : Regex) (s : String)
    (h1 : cf.type = .text) (h2 : cf.validation_regex = some r) (h3 : s ≠ "") :
    ((validate cf (.str s) = .ok) ↔ r.matchPrefix s.data = true) ∧
    (r.eosFree = true →
      ((validate cf (.str s) = .ok) ↔ ∃ p q, s.data = p ++ q ∧ r.matchFull p = true)) ∧
    ((Regex.cat r .eos).matchPrefix s.data = r.matchFull s.data) := by
  have hempty : isEmptyVal (.str s) = false :=
    isEmptyVal_eq_false_of_pyTruthy (.str s) (by simp [pyTruthy, h3])
  have hmain : (validate cf (.str s) = .ok) ↔ r.matchPrefix s.data = true := by
    simp only [validate, hempty, h1, h2, Bool.not_false, if_true]
    split <;> simp_all
  refine ⟨hmain, fun hf => ?_, Regex.matchPrefix_cat_eos r s.data⟩
  rw [hmain]
  exact Regex.matchPrefix_iff_prefix_fullmatch r s.data hf

/-- C5 counterexample: on the optional text field `cf5` (pattern `A`),
the empty string is accepted by `validate` even though the pattern
matches no prefix of it, so "validate succeeds iff the regex matches a
prefix" fails for the empty string. -/
theorem C5_counterexample :
    validate cf5 (Value.str "") = .ok ∧ (Regex.char 'A').matchPrefix "".data = false ∧
    cf5.validation_regex = some (Regex.char 'A') :=
  ⟨by decide, by decide, rfl⟩

/-- C5 witness: `validate` accepts "AB" against the unanchored pattern
`A` (a proper prefix matches). -/
theorem C5_witness : validate cf5 (Value.str "AB") = .ok :=
  (C5_text_regex_prefix_match cf5 (Regex.char 'A') "AB" rfl rfl (by decide)).1.mpr (by decide)

/-! ### C4: the form field's initial value -/

/-- C4 counterexample: on the select field `cf4` (choices a, b; default
"z" not among them) with `set_initial = True`, the produced field's
initial value is "z", not empty — membership of the default in the
choices never suppresses the initial set at source line 218 (line 254
only re-assigns `default_choice` when it is truthy, which is a no-op). -/
theorem C4_counterexample :
    (to_form_field cf4 true true false).map FormField.initial = some (Value.str "z") ∧
    pymemStr cf4.default (cf4.choices.getD []) = false ∧
    Value.str "z" ≠ Value.none :=
  ⟨rfl, by decide, fun h => Value.noConfusion h⟩

/-- C4 amended: whenever `to_form_field` returns a field at all, its
initial value is `def.default` exactly when `set_initial` is true —
independently of whether the default is a member of the choices — and
empty (`None`) when `set_initial` is false. -/
theorem C4_initial_eq_default_iff_set_initial (cf : CustomField)
    (si er ci : Bool) (f : FormField) (h : to_form_field cf si er ci = some f) :
    f.initial = if si then cf.default else Value.none := by
  unfold to_form_field at h
  cases htype : cf.type <;> rw [htype] at h <;>
    try (simp only [Option.some.injEq] at h; subst h; rfl)
  all_goals (
    cases hch : cf.choices with
    | none => rw [hch] at h; exact Option.noConfusion h
    | some cs =>
        rw [hch] at h
        simp only [Option.some.injEq] at h
        subst h
        cases si
        · simp
        · by_cases hm : pymemStr cf.default cs = true
          · simp only [hm, if_true]
            cases htr : pyTruthy cf.default <;> simp [htr]
          · simp [hm, pyTruthy])

/-- C4 witness: on `cf4a` (default "a" among the choices), the produced
field's initial value is the default. -/
theorem C4_witness :
    (⟨true, Value.str "a", some ["a", "b"]⟩ : FormField).initial
      = if true then cf4a.default else Value.none :=
  C4_initial_eq_default_iff_set_initial cf4a true true false
    ⟨true, Value.str "a", some ["a", "b"]⟩ rfl

/-! ### C9: multiselect membership -/

/-- A list value is never a member of a list of choice strings. -/
theorem pymemStr_list_eq_false (xs : List Value) (cs : List String) :
    pymemStr (.list xs) cs = false := by
  induction cs <;> simp_all [pymemStr, pyEq]

/-- C9 amended: for a multiselect definition with a non-null choices list
and a collection value, `validate` succeeds iff every element is a member
of the choices (a criterion independent of element order and repetition);
when the failure involves only string elements the error is the
structured `InvalidChoiceSet` (a non-string element instead raises an
untyped `TypeError` while the error message is built, which is what the
counterexample exhibits). -/
theorem C9_multiselect_subset_iff (cf : CustomField) (xs : List Value) (cs : List String)
    (h1 : cf.type = .multiselect) (h2 : cf.choices = some cs) :
    ((validate cf (Value.list xs) = .ok) ↔ ∀ x ∈ xs, pymemStr x cs = true) ∧
    ((∀ x ∈ xs, ∃ t, x = Value.str t) → ¬(∀ x ∈ xs, pymemStr x cs = true) →
        validate cf (Value.list xs) = .vfail .invalidChoiceSet) := by
  have hempty : isEmptyVal (Value.list xs) = false := rfl
  by_cases hl : xs.any (fun x => match x with | .list _ => true | _ => false) = true
  · obtain ⟨x₀, hx₀, hxl⟩ := List.any_eq_true.mp hl
    obtain ⟨ys, rfl⟩ : ∃ ys, x₀ = Value.list ys := by
      cases x₀ <;> simp_all
    constructor
    · simp only [validate, hempty, h1, h2, pySet, hl, Bool.not_false, if_true]
      constructor
      · intro hcontra; exact absurd hcontra (by simp)
      · intro hall
        exact absurd (hall _ hx₀) (by simp [pymemStr_list_eq_false])
    · intro hstr _
      obtain ⟨t, ht⟩ := hstr _ hx₀
      exact absurd ht (fun hh => Value.noConfusion hh)
  · replace hl : xs.any (fun x => match x with | .list _ => true | _ => false) = false :=
      Bool.not_eq_true _ ▸ eq_false_of_ne_true hl
    by_cases ha : xs.all (fun e => pymemStr e cs) = true
    · have hok : validate cf (Value.list xs) = .ok := by
        simp [validate, hempty, h1, h2, pySet, hl, ha]
      constructor
      · simp only [hok, true_iff]
        exact List.all_eq_true.mp ha
      · intro _ hnot
        exact absurd (List.all_eq_true.mp ha) hnot
    · have hnotall : ¬∀ x ∈ xs, pymemStr x cs = true := fun hall =>
        ha (List.all_eq_true.mpr hall)
      constructor
      · simp only [validate, hempty, h1, h2, pySet, hl, ha, Bool.not_false, if_true, if_false]
        constructor
        · intro hcontra
          revert hcontra
          cases hj : pyJoin (Value.list xs) <;> simp
        · intro hall; exact absurd hall hnotall
      · intro hstr _
        have hjoin : pyJoin (Value.list xs) =
            some (", ".intercalate (xs.map pyStr)) := by
          have : xs.all (fun x => match x with | .str _ => true | _ => false) = true :=
            List.all_eq_true.mpr (fun x hx => by obtain ⟨t, rfl⟩ := hstr x hx; rfl)
          simp [pyJoin, this]
        simp [validate, hempty, h1, h2, pySet, hl, ha, hjoin]

/-- C9 counterexample: on the multiselect field `cf9` (choices a, b, c),
the collection `[1]` contains an element outside the choices, but
`validate` raises an untyped `TypeError` (from `', '.join(value)` on the
integer) rather than failing with `InvalidChoiceSet`. -/
theorem C9_counterexample :
    validate cf9 (Value.list [Value.int 1]) = .pyerror ∧
    VResult.pyerror ≠ .vfail .invalidChoiceSet :=
  ⟨by decide, by decide⟩

/-- C9 witness: `["a","c"]` validates against choices a, b, c; `["a","z"]`
fails with `InvalidChoiceSet`. -/
theorem C9_witness :
    validate cf9 (Value.list [Value.str "a", Value.str "c"]) = .ok ∧
    validate cf9 (Value.list [Value.str "a", Value.str "z"]) = .vfail .invalidChoiceSet :=
  ⟨(C9_multiselect_subset_iff cf9 [Value.str "a", Value.str "c"] ["a", "b", "c"]
      rfl rfl).1.mpr (by decide),
   (C9_multiselect_subset_iff cf9 [Value.str "a", Value.str "z"] ["a", "b", "c"]
      rfl rfl).2
     (by
       intro x hx
       cases hx with
       | head => exact ⟨"a", rfl⟩
       | tail _ hx' =>
           cases hx' with
           | head => exact ⟨"z", rfl⟩
           | tail _ hx'' => cases hx'')
     (by decide)⟩

/-! ### Dict and bulk-loop lemmas for C1 and C7 -/

/-- Lookup of an absent key yields nothing. -/
theorem getVal_eq_none_of_hasKey_false (d : Inst) (k : String)
    (h : hasKey d k = false) : getVal d k = Option.none := by
  induction d with
  | nil => rfl
  | cons p d ih =>
      simp only [hasKey, List.any_cons, Bool.or_eq_false_iff] at h
      simp only [getVal, List.find?_cons, h.1]
      exact ih h.2

/-- Key presence distributes over dict concatenation. -/
theorem hasKey_append (d₁ d₂ : Inst) (k : String) :
    hasKey (d₁ ++ d₂) k = (hasKey d₁ k || hasKey d₂ k) := by
  simp [hasKey, List.any_append]

/-- Lookup in a dict extended with a previously absent key finds the new
value. -/
theorem getVal_append_single (d : Inst) (k : String) (v : Value)
    (h : hasKey d k = false) : getVal (d ++ [(k, v)]) k = some v := by
  induction d with
  | nil => simp [getVal]
  | cons p d ih =>
      simp only [hasKey, List.any_cons, Bool.or_eq_false_iff] at h
      simp only [List.cons_append, getVal, List.find?_cons, h.1]
      exact ih h.2

/-- Deleting a key removes it. -/
theorem hasKey_delKey_self (d : Inst) (k : String) :
    hasKey (delKey d k) k = false := by
  induction d with
  | nil => rfl
  | cons p d ih =>
      cases hpk : p.1 == k <;>
        simp_all [hasKey, delKey, List.filter_cons, List.any_cons]

/-- Deleting one key leaves presence of another unchanged. -/
theorem hasKey_delKey_ne (d : Inst) (j k : String) (h : k ≠ j) :
    hasKey (delKey d j) k = hasKey d k := by
  induction d with
  | nil => rfl
  | cons p d ih =>
      cases hpj : p.1 == j
      · simp_all [hasKey, delKey, List.filter_cons, List.any_cons]
      · have hpk : (p.1 == k) = false := by
          have : p.1 = j := by simpa using hpj
          simp [this, h.symm]
        simp_all [hasKey, delKey, List.filter_cons, List.any_cons]

/-- Deleting one key leaves lookups of another unchanged. -/
theorem getVal_delKey_ne (d : Inst) (j k : String) (h : k ≠ j) :
    getVal (delKey d j) k = getVal d k := by
  induction d with
  | nil => rfl
  | cons p d ih =>
      cases hpj : p.1 == j
      · cases hpk2 : p.1 == k <;>
          simp_all [getVal, delKey, List.filter_cons, List.find?_cons]
      · have hpk : (p.1 == k) = false := by
          have : p.1 = j := by simpa using hpj
          simp [this, h.symm]
        simp_all [getVal, delKey, List.filter_cons, List.find?_cons]

/-- Deleting an absent key is the identity. -/
theorem delKey_eq_self (d : Inst) (k : String) (h : hasKey d k = false) :
    delKey d k = d := by
  induction d with
  | nil => rfl
  | cons p d ih =>
      simp only [hasKey, List.any_cons, Bool.or_eq_false_iff] at h
      have hd := ih h.2
      simp only [delKey, List.filter_cons, h.1, Bool.not_false, if_true]
      simp only [delKey] at hd
      rw [hd]

/-- Deleting a present key from a dict with no duplicate keys removes
exactly one entry. -/
theorem delKey_length (d : Inst) (k : String) (hnd : (d.map Prod.fst).Nodup)
    (h : hasKey d k = true) : (delKey d k).length + 1 = d.length := by
  induction d with
  | nil => simp [hasKey] at h
  | cons p d ih =>
      rw [List.map_cons, List.nodup_cons] at hnd
      cases hpk : p.1 == k
      · have hd : hasKey d k = true := by
          simp only [hasKey, List.any_cons, hpk, Bool.false_or] at h
          exact h
        calc (delKey (p :: d) k).length + 1
            = ((delKey d k).length + 1) + 1 := by
              simp [delKey, List.filter_cons, hpk]
          _ = d.length + 1 := by rw [ih hnd.2 hd]
          _ = (p :: d).length := rfl
      · have hpkk : p.1 = k := by simpa using hpk
        have hd : hasKey d k = false := by
          rcases hb : hasKey d k with _ | _
          · rfl
          · obtain ⟨q, hq, hqk⟩ := List.any_eq_true.mp hb
            have : p.1 ∈ d.map Prod.fst := by
              rw [hpkk]
              exact List.mem_map.mpr ⟨q, hq, by simpa using hqk⟩
            exact absurd this hnd.1
        calc (delKey (p :: d) k).length + 1
            = (delKey d k).length + 1 := by
              simp [delKey, List.filter_cons, hpk]
          _ = d.length + 1 := by rw [delKey_eq_self d k hd]
          _ = (p :: d).length := rfl

/-- After `populate_initial_data` touches an instance, it has the key. -/
theorem hasKey_populateInst (cf : CustomField) (d : Inst) :
    hasKey (populateInst cf d) cf.name = true := by
  unfold populateInst
  cases hk : hasKey d cf.name
  · rw [if_neg (by simp [hk]), setKey, hk]
    simp [hasKey_append, hasKey]
  · rw [if_pos rfl]
    exact hk

/-- An instance already carrying the key is left untouched. -/
theorem populateInst_of_hasKey (cf : CustomField) (d : Inst)
    (h : hasKey d cf.name = true) : populateInst cf d = d := by
  unfold populateInst
  rw [h]
  rfl

/-- An instance lacking the key receives the definition's default. -/
theorem getVal_populateInst (cf : CustomField) (d : Inst)
    (h : hasKey d cf.name = false) :
    getVal (populateInst cf d) cf.name = some cf.default := by
  unfold populateInst
  rw [h, if_neg (by simp), setKey, h, if_neg (by simp)]
  exact getVal_append_single d cf.name cf.default h

/-- `populate_initial_data` is idempotent on one instance. -/
theorem populateInst_idem (cf : CustomField) (d : Inst) :
    populateInst cf (populateInst cf d) = populateInst cf d :=
  populateInst_of_hasKey cf _ (hasKey_populateInst cf d)

/-- After `remove_stale_data` touches an instance, the key is gone. -/
theorem hasKey_removeInst (cf : CustomField) (d : Inst) :
    hasKey (removeInst cf d) cf.name = false := by
  unfold removeInst
  cases hk : hasKey d cf.name
  · rw [if_neg (by simp [hk])]
    exact hk
  · rw [if_pos rfl]
    exact hasKey_delKey_self d cf.name

/-- `remove_stale_data` is idempotent on one instance. -/
theorem removeInst_idem (cf : CustomField) (d : Inst) :
    removeInst cf (removeInst cf d) = removeInst cf d := by
  conv_lhs => rw [removeInst]
  rw [hasKey_removeInst cf d]
  simp

/-- Instances of the listed record types all satisfy any property the
per-instance update establishes. -/
theorem syncMap_forall (g : Inst → Inst) (P : Inst → Prop) (hg : ∀ d, P (g d))
    (cts : List String) (w : World) :
    ∀ e ∈ syncMap g cts w, e.1 ∈ cts → ∀ d ∈ e.2, P d := by
  intro e he hin d hd
  obtain ⟨e₀, he₀, rfl⟩ := List.mem_map.mp he
  by_cases h : e₀.1 ∈ cts
  · rw [if_pos h] at hd
    obtain ⟨d₀, hd₀, rfl⟩ := List.mem_map.mp hd
    exact hg d₀
  · rw [if_neg h] at hin
    exact absurd hin h

/-- Entries of record types outside the listed set are untouched by the
bulk loop. -/
theorem syncMap_not_listed (g : Inst → Inst) (cts : List String) (w : World) :
    ∀ e ∈ syncMap g cts w, e.1 ∉ cts → e ∈ w := by
  intro e he hout
  obtain ⟨e₀, he₀, rfl⟩ := List.mem_map.mp he
  by_cases h : e₀.1 ∈ cts
  · rw [if_pos h] at hout
    exact absurd h hout
  · rw [if_neg h]
    exact he₀

/-- Mapping an idempotent function twice is mapping it once. -/
theorem map_idem_of_idem {α : Type} (g : α → α) (hg : ∀ x, g (g x) = g x)
    (l : List α) : (l.map g).map g = l.map g := by
  induction l <;> simp_all

/-- An idempotent per-instance update makes the bulk loop idempotent. -/
theorem syncMap_idem (g : Inst → Inst) (hg : ∀ d, g (g d) = g d)
    (cts : List String) (w : World) :
    syncMap g cts (syncMap g cts w) = syncMap g cts w := by
  induction w with
  | nil => rfl
  | cons e w ih =>
      simp only [syncMap, List.map_cons] at ih ⊢
      rw [ih]
      by_cases h : e.1 ∈ cts
      · rw [if_pos h]
        rw [if_pos h, map_idem_of_idem g hg e.2]
      · rw [if_neg h, if_neg h]

/-! ### C1: populate / remove round-trip -/

/-- C1 counterexample: the "site" instance in `w1` already carries
`color = "blue"`; `populate_initial_data` (default "red") leaves it
untouched, so not every instance ends with
`attached_data[def.name] == def.default`. -/
theorem C1_counterexample :
    populate_initial_data cf1 ["site"] w1 = [("site", [[("color", Value.str "blue")]])] ∧
    cf1.default = Value.str "red" ∧
    Value.str "blue" ≠ Value.str "red" :=
  ⟨rfl, rfl, fun h => by injection h with h'; exact absurd h' (by decide)⟩

/-- C1 amended: after `populate_initial_data(def, cts)` every instance of
a listed record type *has the key* `def.name`: instances that lacked it
now map it to `def.default`, while instances that already had it keep
their previous data unchanged.  After `remove_stale_data(def, cts)` (from
any starting world, in particular the populated one) no instance of a
listed type has the key.  Both operations are idempotent.  All parts hold
for any default, including a null one. -/
theorem C1_populate_remove_roundtrip (cf : CustomField) (cts : List String)
    (w w' : World) :
    (∀ e ∈ populate_initial_data cf cts w, e.1 ∈ cts →
        ∀ d ∈ e.2, hasKey d cf.name = true) ∧
    (∀ d : Inst, hasKey d cf.name = false →
        getVal (populateInst cf d) cf.name = some cf.default) ∧
    (∀ d : Inst, hasKey d cf.name = true → populateInst cf d = d) ∧
    populate_initial_data cf cts (populate_initial_data cf cts w) =
      populate_initial_data cf cts w ∧
    (∀ e ∈ remove_stale_data cf cts w', e.1 ∈ cts →
        ∀ d ∈ e.2, hasKey d cf.name = false) ∧
    remove_stale_data cf cts (remove_stale_data cf cts w') =
      remove_stale_data cf cts w' :=
  ⟨syncMap_forall (populateInst cf) (fun d => hasKey d cf.name = true)
      (hasKey_populateInst cf) cts w,
   getVal_populateInst cf,
   populateInst_of_hasKey cf,
   syncMap_idem (populateInst cf) (populateInst_idem cf) cts w,
   syncMap_forall (removeInst cf) (fun d => hasKey d cf.name = false)
      (hasKey_removeInst cf) cts w',
   syncMap_idem (removeInst cf) (removeInst_idem cf) cts w'⟩

/-- C1 witness: with the null-default field `cf1n`, a fresh instance gets
the key with value null, and removal then deletes it; both bulk calls are
idempotent on the concrete world `w1`. -/
theorem C1_witness :
    getVal (populateInst cf1n []) cf1n.name = some Value.none ∧
    populate_initial_data cf1n ["site"] (populate_initial_data cf1n ["site"] w1) =
      populate_initial_data cf1n ["site"] w1 ∧
    remove_stale_data cf1n ["site"] (remove_stale_data cf1n ["site"] w1) =
      remove_stale_data cf1n ["site"] w1 :=
  ⟨(C1_populate_remove_roundtrip cf1n ["site"] w1 w1).2.1 [] rfl,
   (C1_populate_remove_roundtrip cf1n ["site"] w1 w1).2.2.2.1,
   (C1_populate_remove_roundtrip cf1n ["site"] w1 w1).2.2.2.2.2⟩

/-! ### C7: rename moves exactly one entry -/

/-- A present key has a value. -/
theorem getVal_eq_some_of_hasKey (d : Inst) (k : String) (h : hasKey d k = true) :
    ∃ v, getVal d k = some v := by
  induction d with
  | nil => simp [hasKey] at h
  | cons p d ih =>
      cases hpk : p.1 == k
      · simp only [hasKey, List.any_cons, hpk, Bool.false_or] at h
        obtain ⟨v, hv⟩ := ih h
        exact ⟨v, by simpa [getVal, List.find?_cons, hpk] using hv⟩
      · exact ⟨p.2, by simp [getVal, List.find?_cons, hpk]⟩

/-- Appending an entry under a different key leaves lookups unchanged. -/
theorem getVal_append_ne (d : Inst) (k j : String) (v : Value) (h : k ≠ j) :
    getVal (d ++ [(j, v)]) k = getVal d k := by
  induction d with
  | nil =>
      have : (j == k) = false := by simp [Ne.symm h]
      simp [getVal, List.find?_cons, this]
  | cons p d ih =>
      cases hpk : p.1 == k <;>
        simp_all [getVal, List.cons_append, List.find?_cons]

/-- C7 counterexample: the "site" instance carries both `old = "1"` and
`new = "2"`; `rename_object_data` overwrites `new` with "1" and the key
count drops from 2 to 1, so "every other key maps to its previous value
and the key count is unchanged" fails when the target key already
exists. -/
theorem C7_counterexample :
    rename_object_data cf7 "old" "new" w7 = [("site", [[("new", Value.str "1")]])] ∧
    ([("old", Value.str "1"), ("new", Value.str "2")] : Inst).length = 2 ∧
    ([("new", Value.str "1")] : Inst).length = 1 :=
  ⟨rfl, rfl, rfl⟩

/-- C7 amended: for an instance (with duplicate-free keys) that contains
`old_name` but not `new_name`, with `old_name ≠ new_name`,
`rename_object_data`'s per-instance update moves exactly that entry:
afterwards `new_name` maps to the old value, `old_name` is gone, every
other key maps to its previous value and the key count is unchanged; and
the bulk operation ranges over the definition's own `content_types`,
leaving record types outside it untouched. -/
theorem C7_rename_moves_single_entry (d : Inst) (old_name new_name : String)
    (hne : old_name ≠ new_name) (hnew : hasKey d new_name = false)
    (hold : hasKey d old_name = true) (hnd : (d.map Prod.fst).Nodup) :
    getVal (renameInst d old_name new_name) new_name = getVal d old_name ∧
    hasKey (renameInst d old_name new_name) old_name = false ∧
    (∀ k, k ≠ old_name → k ≠ new_name →
        getVal (renameInst d old_name new_name) k = getVal d k) ∧
    (renameInst d old_name new_name).length = d.length ∧
    (∀ (cf : CustomField) (w : World) (e : String × List Inst),
        e ∈ rename_object_data cf old_name new_name w →
        e.1 ∉ cf.content_types → e ∈ w) := by
  have hdelnew : hasKey (delKey d old_name) new_name = false := by
    rw [hasKey_delKey_ne d old_name new_name (Ne.symm hne)]
    exact hnew
  have hset : renameInst d old_name new_name =
      delKey d old_name ++ [(new_name, (getVal d old_name).getD .none)] := by
    unfold renameInst setKey
    rw [hdelnew]
    simp
  obtain ⟨v₀, hv₀⟩ := getVal_eq_some_of_hasKey d old_name hold
  refine ⟨?_, ?_, ?_, ?_, ?_⟩
  · rw [hset, hv₀, getVal_append_single _ new_name _ hdelnew]
    rfl
  · rw [hset, hasKey_append, hasKey_delKey_self]
    simp [hasKey, Ne.symm hne]
  · intro k hk1 hk2
    rw [hset, getVal_append_ne _ k new_name _ hk2, getVal_delKey_ne d old_name k hk1]
  · rw [hset, List.length_append]
    simpa using delKey_length d old_name hnd hold
  · intro cf w e he hout
    exact syncMap_not_listed _ cf.content_types w e he hout

/-- C7 witness: renaming "old" to "new" on `{old: "1", other: "2"}` makes
"new" map to "1". -/
theorem C7_witness :
    getVal (renameInst [("old", Value.str "1"), ("other", Value.str "2")] "old" "new")
      "new" = some (Value.str "1") :=
  ((C7_rename_moves_single_entry [("old", Value.str "1"), ("other", Value.str "2")]
      "old" "new" (by decide) (by decide) (by decide) (by decide)).1).trans rfl
